import Mathlib

/-!
Verification development for the admin-luxuryWithLan frontend.

The definitions below are a shallow embedding of the TypeScript source:

* `src/src/context/AuthContext.tsx` — the auth provider: session state,
  `setUserSession`, the startup `fetchUser` restore path, the auth handlers
  (`handleLogin`, `handleVerifyOtp`, `handleResendOtp`, `handleForgotPassword`,
  `handleResetPassword`, `handleLogout`) and the two axios interceptors
  (`requestInterceptor`, `refreshInterceptor`).
* `src/unnamed/part_000` — the listing popovers: `ListingActions` (row
  dropdown) and `Options` (details-modal dropdown) with their
  `onClickHandlers` and the shared `handleItemClick` loading-state logic.

Modelling conventions: JavaScript `null`/`undefined` become `Option`;
`sessionStorage` becomes a two-slot record holding the values that the code
writes under the keys `"admin-skymeasures-currentUser"` and
`"admin-skymeasures-token"` (the `JSON.stringify`/`JSON.parse` round trip on
those slots is the identity and is not re-modelled); asynchronous API calls
become explicit result parameters (`Option _`, with `none` for a request that
threw); side effects (navigation, remote calls, toasts) become explicit
components of the returned value.
-/

/-- `leadEq pat s` : `pat` matches the leading characters of `s`
(helper for the JS `String.prototype.includes` substring test). -/
def leadEq : List Char → List Char → Bool
  | [], _ => true
  | _ :: _, [] => false
  | a :: as, b :: bs => a == b && leadEq as bs

/-- `hasSubList pat s` : `pat` occurs as a contiguous run inside `s`. -/
def hasSubList (pat : List Char) : List Char → Bool
  | [] => leadEq pat []
  | b :: bs => leadEq pat (b :: bs) || hasSubList pat bs

/-- JS `s.includes(pat)` on strings: substring test, case sensitive. -/
def strIncludes (s pat : String) : Bool := hasSubList pat.data s.data

/-- JS truthiness of a `string | null | undefined` value: `null`,
`undefined` and the empty string are falsy. -/
def jsTruthy : Option String → Bool
  | none => false
  | some s => !s.isEmpty

/-! ## Axios request/response interceptors (AuthContext.tsx, lines 262–303) -/

/-- A request config, as the interceptors see it: the `_retry` marker and the
`Authorization` header (`none` when the header is unset). -/
structure ReqCfg where
  retryFlag : Bool
  auth : Option String
  deriving Repr, DecidableEq

/-- The failed response attached to an axios error: `error.response.status`
and `error.response.message` as read by the refresh interceptor. -/
structure RespInfo where
  status : Nat
  message : String
  deriving Repr, DecidableEq

/-- The request interceptor (AuthContext.tsx lines 263–269):
`config.headers.Authorization = !config?._retry && token ? `Bearer ${token}` :
config.headers.Authorization`. `token` is the token held in auth state. -/
def requestInterceptor (token : Option String) (cfg : ReqCfg) : ReqCfg :=
  { cfg with auth :=
      if !cfg.retryFlag && jsTruthy token then some ("Bearer " ++ token.getD "")
      else cfg.auth }

/-- Outcome of the response-error interceptor: either the original request is
re-issued (carrying its mutated config, with the refreshed token also stored
into auth state), or the original error is rejected. -/
inductive RespOutcome where
  | retryReq (req : ReqCfg) (storedToken : String)
  | rejectWith (resp : RespInfo) (req : ReqCfg)
  deriving Repr, DecidableEq

/-- The response-error handler of `refreshInterceptor` (AuthContext.tsx lines
276–298). `refresh` is the result of `authApi.refreshAccessToken()`:
`some tk` when it resolves with access token `tk`, `none` when it throws.
On a 403/"Unauthorized" failure the code sets `originalRequest._retry = true`,
refreshes, rewrites the `Authorization` header and re-issues the request; on
any other failure, or when the refresh throws, it rejects the original error. -/
def refreshHandler (resp : RespInfo) (req : ReqCfg) (refresh : Option String) :
    RespOutcome :=
  if resp.status == 403 && resp.message == "Unauthorized" then
    let req1 : ReqCfg := { req with retryFlag := true }
    match refresh with
    | some tk => .retryReq { req1 with auth := some ("Bearer " ++ tk) } tk
    | none => .rejectWith resp req1
  else .rejectWith resp req

/-! ## Auth session state (AuthContext.tsx) -/

/-- The derived current user built by `setUserSession` (lines 82–90) and
stored in state and sessionStorage. -/
structure CurrentUser where
  userId : String
  name : String
  email : String
  phone : String
  image : String
  otpVerified : Bool
  role : String
  deriving Repr, DecidableEq

/-- A backend user object as returned by the API (`res.data.user`):
the fields that `setUserSession` reads. `isVerified` models `is_verified`,
which may be absent (`none` ~ `undefined`, folded to `false` by
`user.is_verified || false`). -/
structure BackendUser where
  id : String
  name : String
  email : String
  phone : String
  profilePicture : String
  isVerified : Option Bool
  role : String
  deriving Repr, DecidableEq

/-- The React auth state of `AuthProvider`: the `user`, `token`, `role`,
`isAuthenticated` and `isLoadingAuth` `useState` cells. -/
structure AuthState where
  user : Option CurrentUser
  token : Option String
  role : Option String
  isAuthenticated : Bool
  isLoadingAuth : Bool
  deriving Repr, DecidableEq

/-- `sessionStorage`, restricted to the two keys the provider uses:
`currentUser` is the value stored under `"admin-skymeasures-currentUser"`,
`token` the value stored under `"admin-skymeasures-token"`
(`none` = key absent). -/
structure Storage where
  currentUser : Option CurrentUser
  token : Option String
  deriving Repr, DecidableEq

/-- The current-user record derived from a backend user
(AuthContext.tsx lines 82–90): `otpVerified := user.is_verified || false`,
`role := user.role.includes("admin") ? "ADMIN" : "STAFF"`. -/
def mkCurrentUser (u : BackendUser) : CurrentUser :=
  { userId := u.id
    name := u.name
    email := u.email
    phone := u.phone
    image := u.profilePicture
    otpVerified := u.isVerified.getD false
    role := if strIncludes u.role "admin" then "ADMIN" else "STAFF" }

/-- `setUserSession` (AuthContext.tsx lines 80–102): derives the current
user, sets `token`/`user`/`role` in state, writes both sessionStorage keys,
and returns the derived current user. -/
def setUserSession (st : AuthState) (sto : Storage) (u : BackendUser)
    (authToken : String) : AuthState × Storage × CurrentUser :=
  let cu := mkCurrentUser u
  ({ st with token := some authToken, user := some cu, role := some cu.role },
   { currentUser := some cu, token := some authToken },
   cu)

/-- The `catch` branch of the startup `fetchUser` (AuthContext.tsx lines
60–74): when fetching the authenticated user fails, restore the session from
sessionStorage if both keys are present (JS truthiness: the stored strings
are `JSON.stringify` outputs, hence non-empty), else set `token`, `user`
and `role` to `null`. -/
def restoreSession (st : AuthState) (sto : Storage) : AuthState :=
  match sto.currentUser, sto.token with
  | some cu, some tk =>
      { st with token := some tk, user := some cu, role := some cu.role }
  | _, _ => { st with token := none, user := none, role := none }

/-! ## Auth handlers (AuthContext.tsx lines 104–260)

Each handler takes the current state and storage, its arguments, and the
result of the API call it would make (`none` = the request threw), and
returns the new state, the new storage, the navigation it performed
(`none` = no `navigate` call) and whether the API was actually called. -/

/-- Result of an auth handler: state, storage, navigation target and
whether the remote API was called. -/
structure HandlerOut where
  state : AuthState
  storage : Storage
  nav : Option String
  apiCalled : Bool
  deriving Repr, DecidableEq

/-- An API response carrying only a `status` flag (`verifyOtp`, `resendOtp`,
`forgotPassword`, `resetPassword` responses as far as the handlers read
them). -/
structure StatusRes where
  status : Bool
  deriving Repr, DecidableEq

/-- The `data` part of a login / auth-user response: `{ token, user }`.
The user may be absent (`res?.data?.user` is checked before use). -/
structure LoginData where
  token : String
  user : Option BackendUser
  deriving Repr, DecidableEq

/-- A login / auth-user response: `status` flag plus optional `data`. -/
structure LoginRes where
  status : Bool
  data : Option LoginData
  deriving Repr, DecidableEq

/-- JS truthiness of `res?.status`: `none` (request threw / `res`
nullish) and `status: false` both lead into the `throw`/`catch` path. -/
def resOk : Option StatusRes → Bool
  | some r => r.status
  | none => false

/-- Same check for a login-shaped response. -/
def loginResOk : Option LoginRes → Bool
  | some r => r.status
  | none => false

/-- `handleLogin` (AuthContext.tsx lines 104–152). Guard: return at once
when `email` or `password` is falsy. On success, establish the session when
a user is returned, then navigate to `/verify-otp` when the user is not
verified and to `/dashboard` otherwise. On any failure (`res` nullish,
`status` falsy, or the request threw) clear `token`/`user`/`role` and show
an error toast. `isLoadingAuth` is reset in the `finally` block. -/
def handleLogin (st : AuthState) (sto : Storage) (email password : String)
    (res : Option LoginRes) : HandlerOut :=
  if email.isEmpty || password.isEmpty then ⟨st, sto, none, false⟩
  else
    let st := { st with isLoadingAuth := true }
    match res with
    | some r =>
      if r.status then
        match r.data.bind LoginData.user, r.data with
        | some u, some dat =>
          let (st1, sto1, _) := setUserSession st sto u dat.token
          if !(u.isVerified.getD false) then
            ⟨{ st1 with isLoadingAuth := false }, sto1, some "/verify-otp", true⟩
          else
            ⟨{ st1 with isLoadingAuth := false }, sto1, some "/dashboard", true⟩
        | _, _ =>
          -- no user: `if (user) setUserSession` is skipped and
          -- `!user?.is_verified` is truthy, so navigate to `/verify-otp`
          ⟨{ st with isLoadingAuth := false }, sto, some "/verify-otp", true⟩
      else
        ⟨{ st with
            token := none, user := none, role := none,
            isLoadingAuth := false }, sto, none, true⟩
    | none =>
      ⟨{ st with
          token := none, user := none, role := none,
          isLoadingAuth := false }, sto, none, true⟩

/-- The placeholder produced by spreading a nullish `user` in
`{ ...(user as User), otpVerified: true }`: only `otpVerified` is set. -/
def spreadNullUser : CurrentUser :=
  { userId := "", name := "", email := "", phone := "", image := ""
    otpVerified := true, role := "" }

/-- `handleVerifyOtp` (AuthContext.tsx lines 154–181). Guard: return at once
when `otp` or `email` is falsy (the OTP is a number, so `0` is falsy). On
success, store the current user with `otpVerified := true` in sessionStorage
and state, and navigate to `/dashboard`; on failure only toast and rethrow.
`isLoadingAuth` is reset in the `finally` block. -/
def handleVerifyOtp (st : AuthState) (sto : Storage) (otp : Nat)
    (email : String) (res : Option StatusRes) : HandlerOut :=
  if otp == 0 || email.isEmpty then ⟨st, sto, none, false⟩
  else
    let st := { st with isLoadingAuth := true }
    if resOk res then
      let updatedUser :=
        match st.user with
        | some cu => { cu with otpVerified := true }
        | none => spreadNullUser
      ⟨{ st with user := some updatedUser, isLoadingAuth := false },
       { sto with currentUser := some updatedUser }, some "/dashboard", true⟩
    else
      ⟨{ st with isLoadingAuth := false }, sto, none, true⟩

/-- `handleResendOtp` (AuthContext.tsx lines 183–196). Guard: return at once
when `email` is falsy; otherwise call the API and toast, changing no state
and never navigating. -/
def handleResendOtp (st : AuthState) (sto : Storage) (email : String)
    (res : Option StatusRes) : HandlerOut :=
  if email.isEmpty then ⟨st, sto, none, false⟩
  else ⟨st, sto, none, true⟩

/-- `handleForgotPassword` (AuthContext.tsx lines 198–216). Guard: return at
once when `email` is falsy. On success navigate to `/change-password`;
`isLoadingAuth` is reset in the `finally` block. -/
def handleForgotPassword (st : AuthState) (sto : Storage) (email : String)
    (res : Option StatusRes) : HandlerOut :=
  if email.isEmpty then ⟨st, sto, none, false⟩
  else if resOk res then
    ⟨{ st with isLoadingAuth := false }, sto, some "/change-password", true⟩
  else
    ⟨{ st with isLoadingAuth := false }, sto, none, true⟩

/-- `handleResetPassword` (AuthContext.tsx lines 218–236). Guard: return at
once when `email`, `password` or `otp` is falsy (here the OTP is a string).
On success navigate to `/change-password/success`; `isLoadingAuth` is reset
in the `finally` block. -/
def handleResetPassword (st : AuthState) (sto : Storage)
    (email password otp : String) (res : Option StatusRes) : HandlerOut :=
  if email.isEmpty || password.isEmpty || otp.isEmpty then ⟨st, sto, none, false⟩
  else if resOk res then
    ⟨{ st with isLoadingAuth := false }, sto, some "/change-password/success",
     true⟩
  else
    ⟨{ st with isLoadingAuth := false }, sto, none, true⟩

/-- The login route `routes.LOGIN` imported from `@/constants`; that module
is not among the provided sources, so the path is kept symbolic (no claim
depends on its concrete value). -/
def routesLOGIN : String := "routes.LOGIN"

/-- `handleLogout` (AuthContext.tsx lines 238–260). When the logout call
succeeds, clear all auth state, remove both sessionStorage keys and navigate
to the login route; when it throws, only toast. -/
def handleLogout (st : AuthState) (sto : Storage) (ok : Bool) : HandlerOut :=
  if ok then
    ⟨{ st with
        token := none, user := none, role := none,
        isAuthenticated := false },
     { currentUser := none, token := none }, some routesLOGIN, true⟩
  else ⟨st, sto, none, true⟩

/-! ## Listing popovers (src/unnamed/part_000) -/

/-- An entry of a dropdown list: its label and whether a loader is shown
while its handler runs (the `icon` fields are all empty strings). -/
structure DropItem where
  label : String
  showLoader : Bool
  deriving Repr, DecidableEq

/-- `dropdownList` of `ListingActions` (part_000 lines 13–18). -/
def dropdownList : List DropItem :=
  [⟨"Approve", true⟩, ⟨"Reject", true⟩, ⟨"View details", false⟩,
   ⟨"Delete", true⟩]

/-- `options` of the details-modal `Options` dropdown (part_000 lines
131–137). -/
def optionsList : List DropItem :=
  [⟨"Approve", true⟩, ⟨"Reject", true⟩, ⟨"Edit", false⟩, ⟨"Flag", true⟩,
   ⟨"Delete", true⟩]

/-- A remote API request issued by a listing action. The only hook used is
`useUpdatePropertyPublishStatus`, called as
`mutateAsync({ propertyId, type })`. -/
inductive ApiCall where
  | publishStatus (propertyId : String) (type : String)
  deriving Repr, DecidableEq

/-- Kind of a `toast` notification. -/
inductive ToastKind where
  | success
  | info
  | error
  deriving Repr, DecidableEq

/-- A `toast` call: its kind and message. -/
structure Toast where
  kind : ToastKind
  message : String
  deriving Repr, DecidableEq

/-- A change to the `openModal` state of `ListingActions`. -/
inductive ModalChange where
  | keep
  | openDetails
  | openEdit
  deriving Repr, DecidableEq

/-- The visible effects of one dropdown handler, on the path where its API
call (if any) succeeds: remote requests issued, toasts shown, and the modal
state change. -/
structure HandlerSpec where
  apiCalls : List ApiCall
  toasts : List Toast
  modal : ModalChange
  deriving Repr, DecidableEq

/-- `onClickHandlers` of `ListingActions` (part_000 lines 26–49), for the
row whose `data.id` is `dataId`: index 0 (Approve) publishes via the API and
toasts success; index 1 (Reject) only shows an info toast; index 2 (View
details) opens the details modal; index 3 (Delete) calls the API with
`type: "unpublish"` and toasts "Property deleted successfully". `none` for
an index with no handler. -/
def listingOnClick (dataId : String) : Nat → Option HandlerSpec
  | 0 => some ⟨[.publishStatus dataId "publish"],
               [⟨.success, "Property published successfully"⟩], .keep⟩
  | 1 => some ⟨[], [⟨.info, "Property rejected"⟩], .keep⟩
  | 2 => some ⟨[], [], .openDetails⟩
  | 3 => some ⟨[.publishStatus dataId "unpublish"],
               [⟨.success, "Property deleted successfully"⟩], .keep⟩
  | _ => none

/-- `onClickHandlers` of `Options` (part_000 lines 146–152): indices 0
(Approve), 1 (Reject), 3 (Flag) and 4 (Delete) are `() => null`; index 2
(Edit) opens the edit modal. -/
def optionsOnClick : Nat → Option HandlerSpec
  | 0 => some ⟨[], [], .keep⟩
  | 1 => some ⟨[], [], .keep⟩
  | 2 => some ⟨[], [], .openEdit⟩
  | 3 => some ⟨[], [], .keep⟩
  | 4 => some ⟨[], [], .keep⟩
  | _ => none

/-- Trace of one `handleItemClick` run (part_000 lines 50–72 and 154–176):
the loading-state array while the handler runs, the final array after the
`finally` block, whether a handler ran, and whether the exception (if the
handler threw) propagates out. -/
structure ClickTrace where
  during : List Bool
  final : List Bool
  ran : Bool
  threw : Bool
  deriving Repr, DecidableEq

/-- `handleItemClick`: when no handler exists at `idx`, return at once;
otherwise, when `showLoader` is set, flip the flag at `idx` to `true`
(copy-and-set) before awaiting the handler, and back to `false` in the
`finally` block, which runs whether or not the handler throws.
`handlerThrows` says whether the awaited handler rejects. -/
def handleItemClick (handlers : Nat → Option HandlerSpec)
    (states : List Bool) (idx : Nat) (showLoader : Bool)
    (handlerThrows : Bool) : ClickTrace :=
  match handlers idx with
  | none => ⟨states, states, false, false⟩
  | some _ =>
    let s1 := if showLoader then states.set idx true else states
    let s2 := if showLoader then s1.set idx false else s1
    ⟨s1, s2, true, handlerThrows⟩

/-! ## Theorems -/

/-- The empty string is empty (computation fact used by the guard
lemmas). -/
theorem emptyStr_isEmpty : "".isEmpty = true := rfl

/-- **C1.** The claim says a request re-issued once after a token refresh
never triggers another refresh-and-retry on a second 403/"Unauthorized"
failure. The code sets `originalRequest._retry = true` but never consults
that flag in the interceptor condition, so a request already marked
`_retry = true` that fails again with 403/"Unauthorized" triggers a second
refresh and is re-issued again: the retry is unbounded, contradicting both
the claim and the evident purpose of the `_retry` marker. -/
theorem c1_second_retry_triggered :
    refreshHandler ⟨403, "Unauthorized"⟩ ⟨true, some "Bearer t1"⟩ (some "t2")
      = .retryReq ⟨true, some "Bearer t2"⟩ "t2" := by
  rfl

/-- **C2.** The response interceptor: on a failure with status 403 and
message "Unauthorized", when the refresh resolves with token `tk` it stores
`tk` in auth state, sets the request's `Authorization` header to
`"Bearer tk"` and re-issues the request; when the refresh throws it rejects
the original error (the request config carrying only the `_retry` marker set
at entry); on any failure not matching the condition it rejects the original
error with nothing changed. -/
theorem c2_refresh_interceptor_cases (resp : RespInfo) (req : ReqCfg) :
    (∀ tk, resp.status = 403 → resp.message = "Unauthorized" →
      refreshHandler resp req (some tk) =
        .retryReq { retryFlag := true, auth := some ("Bearer " ++ tk) } tk) ∧
    (resp.status = 403 → resp.message = "Unauthorized" →
      refreshHandler resp req none =
        .rejectWith resp { req with retryFlag := true }) ∧
    (¬(resp.status = 403 ∧ resp.message = "Unauthorized") →
      ∀ refresh, refreshHandler resp req refresh = .rejectWith resp req) := by
  refine ⟨?_, ?_, ?_⟩
  · intro tk h1 h2
    simp [refreshHandler, h1, h2]
  · intro h1 h2
    simp [refreshHandler, h1, h2]
  · intro h refresh
    have hc : (resp.status == 403 && resp.message == "Unauthorized") = false := by
      rcases Decidable.em (resp.status = 403) with h1 | h1
      · rcases Decidable.em (resp.message = "Unauthorized") with h2 | h2
        · exact absurd ⟨h1, h2⟩ h
        · simp [h2]
      · simp [h1]
    simp [refreshHandler, hc]

/-- Witness for `c2_refresh_interceptor_cases` at concrete inputs:
a matching failure with a successful refresh, a matching failure with a
failing refresh, and a non-matching (status 500) failure. -/
theorem c2_refresh_interceptor_cases_witness :
    refreshHandler ⟨403, "Unauthorized"⟩ ⟨false, some "Bearer a"⟩ (some "b") =
      .retryReq ⟨true, some "Bearer b"⟩ "b" ∧
    refreshHandler ⟨403, "Unauthorized"⟩ ⟨false, some "Bearer a"⟩ none =
      .rejectWith ⟨403, "Unauthorized"⟩ ⟨true, some "Bearer a"⟩ ∧
    refreshHandler ⟨500, "Unauthorized"⟩ ⟨false, some "Bearer a"⟩ (some "b") =
      .rejectWith ⟨500, "Unauthorized"⟩ ⟨false, some "Bearer a"⟩ :=
  ⟨(c2_refresh_interceptor_cases ⟨403, "Unauthorized"⟩ ⟨false, some "Bearer a"⟩).1
      "b" rfl rfl,
   (c2_refresh_interceptor_cases ⟨403, "Unauthorized"⟩ ⟨false, some "Bearer a"⟩).2.1
      rfl rfl,
   (c2_refresh_interceptor_cases ⟨500, "Unauthorized"⟩ ⟨false, some "Bearer a"⟩).2.2
      (by simp) (some "b")⟩

/-- **C4.** The request interceptor: when the auth state holds a (truthy)
token and the request is not marked as a retry, the `Authorization` header
is set to `"Bearer <token>"`; in every other case (no token, empty token, or
a retried request) the config is returned with its pre-existing
`Authorization` header unchanged. -/
theorem c4_request_interceptor (tok : Option String) (cfg : ReqCfg) :
    (∀ tk, tok = some tk → tk ≠ "" → cfg.retryFlag = false →
      requestInterceptor tok cfg = { cfg with auth := some ("Bearer " ++ tk) }) ∧
    (jsTruthy tok = false ∨ cfg.retryFlag = true →
      requestInterceptor tok cfg = cfg) := by
  constructor
  · intro tk htok htk hr
    subst htok
    have hie : tk.isEmpty = false := by
      rcases Bool.eq_false_or_eq_true tk.isEmpty with h | h
      · exact absurd ((String.isEmpty_iff tk).mp h) htk
      · exact h
    simp [requestInterceptor, jsTruthy, hie, hr]
  · intro h
    rcases h with h | h
    · cases cfg
      simp [requestInterceptor, h]
    · cases cfg
      simp_all [requestInterceptor]

/-- Witness for `c4_request_interceptor`: the token is attached on a fresh
request, and the header is untouched on a retried request and when no token
is held. -/
theorem c4_request_interceptor_witness :
    requestInterceptor (some "t") ⟨false, none⟩ = ⟨false, some "Bearer t"⟩ ∧
    requestInterceptor (some "t") ⟨true, some "Bearer old"⟩ =
      ⟨true, some "Bearer old"⟩ ∧
    requestInterceptor none ⟨false, some "Bearer old"⟩ =
      ⟨false, some "Bearer old"⟩ :=
  ⟨(c4_request_interceptor (some "t") ⟨false, none⟩).1 "t" rfl (by simp) rfl,
   (c4_request_interceptor (some "t") ⟨true, some "Bearer old"⟩).2 (Or.inr rfl),
   (c4_request_interceptor none ⟨false, some "Bearer old"⟩).2 (Or.inl rfl)⟩

/-- **C3.** Session persistence round-trips: `setUserSession` stores exactly
the derived current user and the token in the two sessionStorage slots; the
startup restore path (`fetchUser` failing) then recovers exactly the user,
token and role that `setUserSession` put into state, and when either slot is
absent it sets `user`, `token` and `role` all to `null`. -/
theorem c3_session_roundtrip (st st2 : AuthState) (sto : Storage)
    (u : BackendUser) (tk : String) :
    ((setUserSession st sto u tk).2.1 =
      { currentUser := some (mkCurrentUser u), token := some tk }) ∧
    ((restoreSession st2 (setUserSession st sto u tk).2.1).user =
        (setUserSession st sto u tk).1.user ∧
     (restoreSession st2 (setUserSession st sto u tk).2.1).token =
        (setUserSession st sto u tk).1.token ∧
     (restoreSession st2 (setUserSession st sto u tk).2.1).role =
        (setUserSession st sto u tk).1.role) ∧
    (∀ s : Storage, s.currentUser = none ∨ s.token = none →
      restoreSession st2 s =
        { st2 with user := none, token := none, role := none }) := by
  refine ⟨rfl, ⟨rfl, rfl, rfl⟩, ?_⟩
  intro s hs
  rcases s with ⟨cu, t⟩
  rcases hs with h | h <;> subst h
  · simp [restoreSession]
  · cases cu <;> simp [restoreSession]

/-- Witness for `c3_session_roundtrip` at a concrete backend user, token and
storage states, including a storage with the token slot absent. -/
theorem c3_session_roundtrip_witness :
    ((setUserSession ⟨none, none, none, false, false⟩ ⟨none, none⟩
        ⟨"1", "n", "e", "p", "i", some true, "admin"⟩ "tok").2.1 =
      { currentUser := some (mkCurrentUser
          ⟨"1", "n", "e", "p", "i", some true, "admin"⟩),
        token := some "tok" }) ∧
    restoreSession ⟨none, none, none, false, false⟩
        ⟨some (mkCurrentUser ⟨"1", "n", "e", "p", "i", some true, "admin"⟩),
          none⟩ =
      ⟨none, none, none, false, false⟩ := by
  have h := c3_session_roundtrip ⟨none, none, none, false, false⟩
    ⟨none, none, none, false, false⟩ ⟨none, none⟩
    ⟨"1", "n", "e", "p", "i", some true, "admin"⟩ "tok"
  exact ⟨h.1, h.2.2 _ (Or.inr rfl)⟩

/-- **C9.** The role stored by `setUserSession` is `"ADMIN"` exactly when
the backend role string contains `"admin"` and `"STAFF"` otherwise, in both
auth state and sessionStorage; hence after a successful login that returns a
user, and after a session restore from a storage written by
`setUserSession`, the role is one of those two values, while a restore with
either storage slot absent leaves no session and a `null` role. -/
theorem c9_role_values (st st2 : AuthState) (sto : Storage)
    (u : BackendUser) (tk : String) :
    ((setUserSession st sto u tk).1.role =
      some (if strIncludes u.role "admin" then "ADMIN" else "STAFF")) ∧
    ((setUserSession st sto u tk).2.1.currentUser.map CurrentUser.role =
      some (if strIncludes u.role "admin" then "ADMIN" else "STAFF")) ∧
    (∀ email password r dat u2,
      email ≠ "" → password ≠ "" → r = LoginRes.mk true (some dat) →
      dat.user = some u2 →
      (handleLogin st sto email password (some r)).state.role = some "ADMIN" ∨
      (handleLogin st sto email password (some r)).state.role = some "STAFF") ∧
    ((restoreSession st2 (setUserSession st sto u tk).2.1).role = some "ADMIN" ∨
     (restoreSession st2 (setUserSession st sto u tk).2.1).role = some "STAFF") ∧
    (∀ s : Storage, s.currentUser = none ∨ s.token = none →
      (restoreSession st2 s).role = none ∧ (restoreSession st2 s).user = none ∧
      (restoreSession st2 s).token = none) := by
  refine ⟨?_, ?_, ?_, ?_, ?_⟩
  · simp [setUserSession, mkCurrentUser]
  · simp [setUserSession, mkCurrentUser]
  · intro email password r dat u2 he hp hr hu
    subst hr
    have he2 : email.isEmpty = false := by
      rcases Bool.eq_false_or_eq_true email.isEmpty with h | h
      · exact absurd ((String.isEmpty_iff email).mp h) he
      · exact h
    have hp2 : password.isEmpty = false := by
      rcases Bool.eq_false_or_eq_true password.isEmpty with h | h
      · exact absurd ((String.isEmpty_iff password).mp h) hp
      · exact h
    by_cases hadm : strIncludes u2.role "admin" = true
    · left
      simp [handleLogin, he2, hp2, hu, setUserSession, mkCurrentUser, hadm]
      cases hv : u2.isVerified.getD false <;> simp
    · right
      simp [handleLogin, he2, hp2, hu, setUserSession, mkCurrentUser, hadm]
      cases hv : u2.isVerified.getD false <;> simp
  · by_cases hadm : strIncludes u.role "admin" = true
    · left
      simp [restoreSession, setUserSession, mkCurrentUser, hadm]
    · right
      simp [restoreSession, setUserSession, mkCurrentUser, hadm]
  · intro s hs
    rcases s with ⟨cu, t⟩
    rcases hs with h | h <;> subst h
    · simp [restoreSession]
    · cases cu <;> simp [restoreSession]

/-- Witness for `c9_role_values`: a backend role `"super-admin"` yields
`"ADMIN"`, the login path yields a role in the two-value set, and a restore
with an absent user slot yields `null` role and no session. -/
theorem c9_role_values_witness :
    ((setUserSession ⟨none, none, none, false, false⟩ ⟨none, none⟩
        ⟨"1", "n", "e", "p", "i", some true, "super-admin"⟩ "tok").1.role =
      some "ADMIN") ∧
    ((handleLogin ⟨none, none, none, false, false⟩ ⟨none, none⟩ "e" "pw"
        (some (LoginRes.mk true (some (LoginData.mk "tok"
          (some ⟨"1", "n", "e", "p", "i", some true, "staff"⟩)))))).state.role =
        some "ADMIN" ∨
     (handleLogin ⟨none, none, none, false, false⟩ ⟨none, none⟩ "e" "pw"
        (some (LoginRes.mk true (some (LoginData.mk "tok"
          (some ⟨"1", "n", "e", "p", "i", some true, "staff"⟩)))))).state.role =
        some "STAFF") ∧
    (restoreSession ⟨none, none, none, false, false⟩ ⟨none, some "tok"⟩).role =
      none := by
  have h := c9_role_values ⟨none, none, none, false, false⟩
    ⟨none, none, none, false, false⟩ ⟨none, none⟩
    ⟨"1", "n", "e", "p", "i", some true, "super-admin"⟩ "tok"
  refine ⟨?_, ?_, ?_⟩
  · have := h.1
    simpa using this
  · exact h.2.2.1 "e" "pw" _ (LoginData.mk "tok"
      (some ⟨"1", "n", "e", "p", "i", some true, "staff"⟩))
      ⟨"1", "n", "e", "p", "i", some true, "staff"⟩ (by simp) (by simp) rfl rfl
  · exact (h.2.2.2.2 ⟨none, some "tok"⟩ (Or.inl rfl)).1

/-- **C7.** Login-then-OTP ordering: a successful `handleLogin` that returns
a user navigates to `/verify-otp` when that user is not verified and to
`/dashboard` when it is; a successful `handleVerifyOtp` with a current user
in state stores that user with `otpVerified := true` in both React state and
sessionStorage and navigates to `/dashboard`. -/
theorem c7_login_then_otp (st : AuthState) (sto : Storage) :
    (∀ email password dat u, email ≠ "" → password ≠ "" →
      dat.user = some u →
      (handleLogin st sto email password
          (some (LoginRes.mk true (some dat)))).nav =
        (if u.isVerified.getD false then some "/dashboard"
         else some "/verify-otp")) ∧
    (∀ otp email cu, otp ≠ 0 → email ≠ "" → st.user = some cu →
      (handleVerifyOtp st sto otp email (some ⟨true⟩)).state.user =
        some { cu with otpVerified := true } ∧
      (handleVerifyOtp st sto otp email (some ⟨true⟩)).storage.currentUser =
        some { cu with otpVerified := true } ∧
      (handleVerifyOtp st sto otp email (some ⟨true⟩)).nav =
        some "/dashboard") := by
  constructor
  · intro email password dat u he hp hu
    have he2 : email.isEmpty = false := by
      rcases Bool.eq_false_or_eq_true email.isEmpty with h | h
      · exact absurd ((String.isEmpty_iff email).mp h) he
      · exact h
    have hp2 : password.isEmpty = false := by
      rcases Bool.eq_false_or_eq_true password.isEmpty with h | h
      · exact absurd ((String.isEmpty_iff password).mp h) hp
      · exact h
    cases hv : u.isVerified.getD false <;>
      simp [handleLogin, he2, hp2, hu, hv, setUserSession]
  · intro otp email cu hotp he hcu
    have he2 : email.isEmpty = false := by
      rcases Bool.eq_false_or_eq_true email.isEmpty with h | h
      · exact absurd ((String.isEmpty_iff email).mp h) he
      · exact h
    have ho2 : (otp == 0) = false := by
      simpa using hotp
    refine ⟨?_, ?_, ?_⟩ <;> simp [handleVerifyOtp, he2, ho2, hcu, resOk]

/-- Witness for `c7_login_then_otp`: a login returning an unverified user
navigates to `/verify-otp`, and verifying OTP `1234` flips `otpVerified` in
state and storage and navigates to `/dashboard`. -/
theorem c7_login_then_otp_witness :
    ((handleLogin ⟨none, none, none, false, false⟩ ⟨none, none⟩ "e" "pw"
        (some (LoginRes.mk true (some (LoginData.mk "tok"
          (some ⟨"1", "n", "e", "p", "i", some false, "staff"⟩)))))).nav =
      some "/verify-otp") ∧
    (let st : AuthState :=
      ⟨some ⟨"1", "n", "e", "p", "i", false, "STAFF"⟩, some "tok",
        some "STAFF", false, false⟩
     (handleVerifyOtp st ⟨none, none⟩ 1234 "e" (some ⟨true⟩)).state.user =
        some ⟨"1", "n", "e", "p", "i", true, "STAFF"⟩ ∧
     (handleVerifyOtp st ⟨none, none⟩ 1234 "e" (some ⟨true⟩)).storage.currentUser =
        some ⟨"1", "n", "e", "p", "i", true, "STAFF"⟩ ∧
     (handleVerifyOtp st ⟨none, none⟩ 1234 "e" (some ⟨true⟩)).nav =
        some "/dashboard") := by
  constructor
  · have h := (c7_login_then_otp ⟨none, none, none, false, false⟩ ⟨none, none⟩).1
      "e" "pw" (LoginData.mk "tok" (some ⟨"1", "n", "e", "p", "i", some false, "staff"⟩))
      ⟨"1", "n", "e", "p", "i", some false, "staff"⟩ (by simp) (by simp) rfl
    simpa using h
  · have h := (c7_login_then_otp
      ⟨some ⟨"1", "n", "e", "p", "i", false, "STAFF"⟩, some "tok",
        some "STAFF", false, false⟩ ⟨none, none⟩).2
      1234 "e" ⟨"1", "n", "e", "p", "i", false, "STAFF"⟩ (by simp) (by simp) rfl
    simpa using h

/-- **C8.** Guard clauses: each auth handler returns immediately — no API
call, no navigation, no change to auth state or storage — when any required
argument is falsy; for `handleVerifyOtp` the numeric OTP `0` counts as
missing. -/
theorem c8_guards_noop (st : AuthState) (sto : Storage) :
    (∀ email password res, email = "" ∨ password = "" →
      handleLogin st sto email password res = ⟨st, sto, none, false⟩) ∧
    (∀ otp email res, otp = 0 ∨ email = "" →
      handleVerifyOtp st sto otp email res = ⟨st, sto, none, false⟩) ∧
    (∀ res, handleResendOtp st sto "" res = ⟨st, sto, none, false⟩) ∧
    (∀ res, handleForgotPassword st sto "" res = ⟨st, sto, none, false⟩) ∧
    (∀ email password otp res, email = "" ∨ password = "" ∨ otp = "" →
      handleResetPassword st sto email password otp res =
        ⟨st, sto, none, false⟩) := by
  refine ⟨?_, ?_, ?_, ?_, ?_⟩
  · intro email password res h
    rcases h with h | h <;> subst h <;> simp [handleLogin, emptyStr_isEmpty]
  · intro otp email res h
    rcases h with h | h <;> subst h <;>
      simp [handleVerifyOtp, emptyStr_isEmpty]
  · intro res
    simp [handleResendOtp, emptyStr_isEmpty]
  · intro res
    simp [handleForgotPassword, emptyStr_isEmpty]
  · intro email password otp res h
    rcases h with h | h | h <;> subst h <;>
      simp [handleResetPassword, emptyStr_isEmpty]

/-- Witness for `c8_guards_noop`: with a populated state, an OTP of `0`
makes `handleVerifyOtp` a no-op even with a successful response available,
and an empty password makes `handleLogin` a no-op. -/
theorem c8_guards_noop_witness :
    (handleVerifyOtp
        ⟨some ⟨"1", "n", "e", "p", "i", false, "STAFF"⟩, some "tok",
          some "STAFF", false, false⟩ ⟨none, some "tok"⟩ 0 "e"
        (some ⟨true⟩) =
      ⟨⟨some ⟨"1", "n", "e", "p", "i", false, "STAFF"⟩, some "tok",
          some "STAFF", false, false⟩, ⟨none, some "tok"⟩, none, false⟩) ∧
    (handleLogin ⟨none, none, none, false, false⟩ ⟨none, none⟩ "e" ""
        (some (LoginRes.mk true none)) =
      ⟨⟨none, none, none, false, false⟩, ⟨none, none⟩, none, false⟩) :=
  ⟨(c8_guards_noop
      ⟨some ⟨"1", "n", "e", "p", "i", false, "STAFF"⟩, some "tok",
        some "STAFF", false, false⟩ ⟨none, some "tok"⟩).2.1 0 "e"
      (some ⟨true⟩) (Or.inl rfl),
   (c8_guards_noop ⟨none, none, none, false, false⟩ ⟨none, none⟩).1 "e" ""
      (some (LoginRes.mk true none)) (Or.inr rfl)⟩

/-- **C5, counterexample.** The claim says every action offered in the
listing popovers issues an API request for the listing. The "Reject" entry
of the row dropdown (index 1, an offered action) issues no API call and
only shows an info toast, and the "Approve" entry of the details-modal
dropdown (index 0, handler `() => null`) issues no API call at all. -/
theorem c5_reject_and_modal_no_api :
    dropdownList.get? 1 = some ⟨"Reject", true⟩ ∧
    (listingOnClick "property-1" 1).map HandlerSpec.apiCalls = some [] ∧
    (listingOnClick "property-1" 1).map HandlerSpec.toasts =
      some [⟨.info, "Property rejected"⟩] ∧
    optionsList.get? 0 = some ⟨"Approve", true⟩ ∧
    (optionsOnClick 0).map HandlerSpec.apiCalls = some [] :=
  ⟨rfl, rfl, rfl, rfl, rfl⟩

/-- **C5, amended.** Of the popover actions, only "Approve" (a publish) and
"Delete" (an unpublish) in the row dropdown issue API requests for the
listing; "Reject" in the row dropdown only shows an info toast, and the
"Approve", "Reject", "Flag" and "Delete" entries of the details-modal
dropdown are stubs with no API call, no toast and no state change. -/
theorem c5_amended_action_effects (dataId : String) :
    listingOnClick dataId 0 =
      some ⟨[.publishStatus dataId "publish"],
            [⟨.success, "Property published successfully"⟩], .keep⟩ ∧
    listingOnClick dataId 1 = some ⟨[], [⟨.info, "Property rejected"⟩], .keep⟩ ∧
    listingOnClick dataId 3 =
      some ⟨[.publishStatus dataId "unpublish"],
            [⟨.success, "Property deleted successfully"⟩], .keep⟩ ∧
    optionsOnClick 0 = some ⟨[], [], .keep⟩ ∧
    optionsOnClick 1 = some ⟨[], [], .keep⟩ ∧
    optionsOnClick 3 = some ⟨[], [], .keep⟩ ∧
    optionsOnClick 4 = some ⟨[], [], .keep⟩ :=
  ⟨rfl, rfl, rfl, rfl, rfl, rfl, rfl⟩

/-- **C6.** The claim says the Delete action performs a delete via the
remote API, with the success notification reflecting the operation
performed. The Approve half holds (a publish request with a "published"
toast), but clicking "Delete" (index 3) issues
`updatePropertyPublishStatus` with `type: "unpublish"` — not a delete —
while toasting "Property deleted successfully": the code's own success
message contradicts the operation it performs. -/
theorem c6_delete_issues_unpublish :
    listingOnClick "property-1" 0 =
      some ⟨[.publishStatus "property-1" "publish"],
            [⟨.success, "Property published successfully"⟩], .keep⟩ ∧
    listingOnClick "property-1" 3 =
      some ⟨[.publishStatus "property-1" "unpublish"],
            [⟨.success, "Property deleted successfully"⟩], .keep⟩ :=
  ⟨rfl, rfl⟩

/-- **C10.** `handleItemClick` with `showLoader` set: while the handler
runs the loading flag at the clicked index is `true`, after the `finally`
block it is `false` — whether or not the handler threw — and the flags at
every other index are unchanged throughout. -/
theorem c10_loader_lifecycle (handlers : Nat → Option HandlerSpec)
    (states : List Bool) (idx : Nat) (throws : Bool) (h : HandlerSpec)
    (hidx : idx < states.length) (hh : handlers idx = some h) :
    (handleItemClick handlers states idx true throws).ran = true ∧
    (handleItemClick handlers states idx true throws).threw = throws ∧
    (handleItemClick handlers states idx true throws).during.getD idx false =
      true ∧
    (handleItemClick handlers states idx true throws).final.getD idx false =
      false ∧
    (∀ j, j ≠ idx →
      (handleItemClick handlers states idx true throws).during.getD j false =
        states.getD j false ∧
      (handleItemClick handlers states idx true throws).final.getD j false =
        states.getD j false) := by
  have hlen : (states.set idx true).length = states.length :=
    List.length_set states idx true
  refine ⟨?_, ?_, ?_, ?_, ?_⟩
  · simp [handleItemClick, hh]
  · simp [handleItemClick, hh]
  · simp only [handleItemClick, hh]
    simp [List.getD_eq_getElem?_getD, List.getElem?_set_self,
      if_pos hidx, hidx]
  · simp only [handleItemClick, hh]
    simp [List.getD_eq_getElem?_getD, List.getElem?_set_self,
      hlen ▸ hidx, hidx]
  · intro j hj
    constructor
    · simp only [handleItemClick, hh]
      simp [List.getD_eq_getElem?_getD, List.getElem?_set_ne (Ne.symm hj)]
    · simp only [handleItemClick, hh]
      simp [List.getD_eq_getElem?_getD, List.getElem?_set_ne (Ne.symm hj)]

/-- Witness for `c10_loader_lifecycle`: clicking "Approve" (index 0) of the
row dropdown with all flags initially `false` and a throwing handler. -/
theorem c10_loader_lifecycle_witness :
    (handleItemClick (listingOnClick "property-1")
      [false, false, false, false] 0 true true).during.getD 0 false = true ∧
    (handleItemClick (listingOnClick "property-1")
      [false, false, false, false] 0 true true).final.getD 0 false = false ∧
    (handleItemClick (listingOnClick "property-1")
      [false, false, false, false] 0 true true).during.getD 1 false = false := by
  have h := c10_loader_lifecycle (listingOnClick "property-1")
    [false, false, false, false] 0 true
    ⟨[.publishStatus "property-1" "publish"],
      [⟨.success, "Property published successfully"⟩], .keep⟩
    (by simp) rfl
  exact ⟨h.2.2.1, h.2.2.2.1, ((h.2.2.2.2 1 (by simp)).1).trans rfl⟩








